import Mathlib

/-!
Verification of the ACB-Scraper core (src/scraper.py and src/main.py)
against its natural-language specification.

The Python code is shallowly embedded:
  * table cells and element texts are plain strings;
  * a parsed HTML document is a `Doc` record exposing exactly the element
    queries the scraper performs (team headers, statistics tables, the
    metadata block, referee block, result elements, and quarter partials);
  * Python exceptions are `Except String`; a caught exception becomes a
    `none` / skipped value exactly where the Python `try`/`except` sits;
  * the network transport is an oracle `Nat -> AttemptOutcome` giving the
    outcome of each successive GET attempt, and the sleeps performed by the
    code are collected into explicit event lists.
-/

/-- Python `str.strip()` (whitespace strip on both ends), as used on every
cell text and metadata text. -/
def pyStrip (s : String) : String :=
  String.mk (((s.data.dropWhile Char.isWhitespace).reverse.dropWhile
    Char.isWhitespace).reverse)

/-- Python `str.strip(c)` for a single character argument: remove every
leading and trailing occurrence of `c` (used as `player_data[0].strip('*')`). -/
def pyStripChars (c : Char) (s : String) : String :=
  String.mk (((s.data.dropWhile (fun x => x = c)).reverse.dropWhile
    (fun x => x = c)).reverse)

/-- Python `str.startswith(pre)`. -/
def pyStartsWith (s pre : String) : Bool :=
  pre.data.isPrefixOf s.data

/-- Worker for `pySplitOn`: fuel-based scan emitting a new piece at each
occurrence of the (nonempty) separator.  The fuel is always at least the
length of the remaining input, so the fuel-exhaustion branch is never
reached at the call sites below. -/
def pySplitOnGo (sep : List Char) : Nat → List Char → List Char →
    List (List Char)
  | _, [], acc => [acc.reverse]
  | 0, l, acc => [acc.reverse ++ l]
  | fuel + 1, c :: rest, acc =>
    if sep.isPrefixOf (c :: rest) then
      acc.reverse :: pySplitOnGo sep fuel ((c :: rest).drop sep.length) []
    else
      pySplitOnGo sep fuel rest (c :: acc)

/-- Python `str.split(sep)` for a nonempty separator string: the pieces
between occurrences of `sep`, empty pieces kept (so the result always has
at least one element).  Python raises on an empty separator; no call site
uses one. -/
def pySplitOn (s : String) (sep : String) : List String :=
  if sep.data.isEmpty then [s]
  else (pySplitOnGo sep.data s.data.length s.data []).map String.mk

/-- Worker for `pyReplace`, fuel-based like `pySplitOnGo`. -/
def pyReplaceGo (pat rep : List Char) : Nat → List Char → List Char
  | _, [] => []
  | 0, l => l
  | fuel + 1, c :: rest =>
    if pat.isPrefixOf (c :: rest) then
      rep ++ pyReplaceGo pat rep fuel ((c :: rest).drop pat.length)
    else
      c :: pyReplaceGo pat rep fuel rest

/-- Python `str.replace(pat, rep)` for a nonempty pattern: replace every
occurrence. -/
def pyReplace (s pat rep : String) : String :=
  if pat.data.isEmpty then s
  else String.mk (pyReplaceGo pat.data rep.data s.data.length s.data)

/-- Worker for `pySplitWs`: split at every whitespace character. -/
def pySplitWsGo : List Char → List Char → List (List Char)
  | [], acc => [acc.reverse]
  | c :: rest, acc =>
    if c.isWhitespace then acc.reverse :: pySplitWsGo rest []
    else pySplitWsGo rest (c :: acc)

/-- Python `str.split()` with no argument: split on whitespace runs and
discard empty pieces (used on the quarter-partials text). -/
def pySplitWs (s : String) : List String :=
  ((pySplitWsGo s.data []).map String.mk).filter (fun t => !t.data.isEmpty)

/-- Python `",".join(parts)`-style joining. -/
def pyJoin (sep : String) (parts : List String) : String :=
  String.mk (List.intercalate sep.data (parts.map String.data))

/-- Python list indexing `l[i]` for nonnegative `i`: raises `IndexError`
when the index is out of range. -/
def pyIdx (l : List String) (i : Nat) : Except String String :=
  match l.get? i with
  | some x => Except.ok x
  | none => Except.error "IndexError"

/-- The fixed 27-column schema of a player record, in the declared order
(`headers` in `parse_table`, src/scraper.py lines 157-162). -/
def headers : List String :=
  ["id_partido", "equipo", "titular", "dorsal", "nombre", "minutos", "puntos",
   "T2", "T2 %", "T3", "T3 %", "T1", "T1 %", "rebotes_defensivos",
   "rebotes_ofensivos", "rebotes_totales", "asistencias", "robos", "perdidas",
   "C", "tapones_favor", "tapones_contra", "mates", "faltas_cometidas",
   "faltas_recibidas", "+/-", "V"]

/-- The per-key zero filling applied by the did-not-play branch of
`create_player_dict` (src/scraper.py lines 235-248): identity keys are kept,
minutes becomes "00:00", shooting percentages "0%", shooting splits "0/0",
and every other key "0". -/
def zeroFill : String × String → String × String
  | (k, v) =>
    if k = "id_partido" ∨ k = "equipo" ∨ k = "titular" ∨ k = "dorsal" ∨
        k = "nombre" then (k, v)
    else if k = "minutos" then (k, "00:00")
    else if k = "T2 %" ∨ k = "T3 %" ∨ k = "T1 %" then (k, "0%")
    else if k = "T2" ∨ k = "T3" ∨ k = "T1" then (k, "0/0")
    else (k, "0")

/-- `create_player_dict` (src/scraper.py lines 186-249).  The input
`player_data` is the list of already-stripped cell texts of one row; the
result is the Python dict as an ordered association list (Python dicts
preserve insertion order).  All indices up to 22 are accessed by the Python
code; every call site guards `player_data.length >= 23`, so the `getD`
defaults are never reached there. -/
def create_player_dict (player_data : List String) (game_id : Nat)
    (team_name : String) : List (String × String) :=
  let d0 := player_data.getD 0 ""
  let minutos := player_data.getD 2 ""
  let d_o := pySplitOn (player_data.getD 11 "") "+"
  let player_dict : List (String × String) :=
    [("id_partido", toString game_id),
     ("equipo", team_name),
     ("titular", if pyStartsWith d0 "*" then "*" else ""),
     ("dorsal", pyStripChars '*' d0),
     ("nombre", player_data.getD 1 ""),
     ("minutos", minutos),
     ("puntos", player_data.getD 3 ""),
     ("T2", player_data.getD 4 ""),
     ("T2 %", player_data.getD 5 ""),
     ("T3", player_data.getD 6 ""),
     ("T3 %", player_data.getD 7 ""),
     ("T1", player_data.getD 8 ""),
     ("T1 %", player_data.getD 9 ""),
     ("rebotes_defensivos", if 0 < d_o.length then d_o.getD 0 "" else "0"),
     ("rebotes_ofensivos", if 1 < d_o.length then d_o.getD 1 "" else "0"),
     ("rebotes_totales", player_data.getD 10 ""),
     ("asistencias", player_data.getD 12 ""),
     ("robos", player_data.getD 13 ""),
     ("perdidas", player_data.getD 14 ""),
     ("C", player_data.getD 15 ""),
     ("tapones_favor", player_data.getD 16 ""),
     ("tapones_contra", player_data.getD 17 ""),
     ("mates", player_data.getD 18 ""),
     ("faltas_cometidas", player_data.getD 19 ""),
     ("faltas_recibidas", player_data.getD 20 ""),
     ("+/-", player_data.getD 21 ""),
     ("V", player_data.getD 22 "")]
  if minutos = "" then player_dict.map zeroFill else player_dict

/-- The per-row emission step of `parse_table` (src/scraper.py lines
174-181): every header key missing from the dict is filled with the empty
string, and the record is emitted in the fixed `headers` order. -/
def orderRecord (d : List (String × String)) : List (String × String) :=
  headers.map fun k => (k, (d.lookup k).getD "")

/-- The body of the row loop of `parse_table` (src/scraper.py lines
164-181): cells are stripped, rows with fewer than 23 cells are skipped,
and the remaining rows go through `create_player_dict` and the
key-completion / reordering step. -/
def normalize_row (row : List String) (team_name : String) (game_id : Nat) :
    Option (List (String × String)) :=
  let player_data := row.map pyStrip
  if player_data.length < 23 then none
  else some (orderRecord (create_player_dict player_data game_id team_name))

/-- `parse_table` (src/scraper.py lines 141-184).  A table is the list of
its `tr` rows, each row the list of its `td` cell texts.  The Python slice
`rows[2:-4]` keeps exactly the rows with index `2 <= i < len - 4`. -/
def parse_table (tbl : List (List String)) (team_name : String)
    (game_id : Nat) : List (List (String × String)) :=
  ((tbl.take (tbl.length - 4)).drop 2).filterMap
    fun row => normalize_row row team_name game_id


/-! ## Claim C1: the did-not-play rule of create_player_dict -/

/-- The conclusion of claim C1, for a row whose (stripped) cells are
`player_data`: all statistic fields carry their normalized zero-forms while
the identity fields keep the values derived from the input. -/
def didNotPlayConcl (player_data : List String) (game_id : Nat)
    (team_name : String) : Prop :=
  let d := create_player_dict player_data game_id team_name
  d.lookup "minutos" = some "00:00" ∧
  d.lookup "T2" = some "0/0" ∧
  d.lookup "T3" = some "0/0" ∧
  d.lookup "T1" = some "0/0" ∧
  d.lookup "T2 %" = some "0%" ∧
  d.lookup "T3 %" = some "0%" ∧
  d.lookup "T1 %" = some "0%" ∧
  d.lookup "puntos" = some "0" ∧
  d.lookup "rebotes_defensivos" = some "0" ∧
  d.lookup "rebotes_ofensivos" = some "0" ∧
  d.lookup "rebotes_totales" = some "0" ∧
  d.lookup "asistencias" = some "0" ∧
  d.lookup "robos" = some "0" ∧
  d.lookup "perdidas" = some "0" ∧
  d.lookup "C" = some "0" ∧
  d.lookup "tapones_favor" = some "0" ∧
  d.lookup "tapones_contra" = some "0" ∧
  d.lookup "mates" = some "0" ∧
  d.lookup "faltas_cometidas" = some "0" ∧
  d.lookup "faltas_recibidas" = some "0" ∧
  d.lookup "+/-" = some "0" ∧
  d.lookup "V" = some "0" ∧
  d.lookup "id_partido" = some (toString game_id) ∧
  d.lookup "equipo" = some team_name ∧
  d.lookup "titular" =
    some (if pyStartsWith (player_data.getD 0 "") "*" then "*" else "") ∧
  d.lookup "dorsal" = some (pyStripChars '*' (player_data.getD 0 "")) ∧
  d.lookup "nombre" = some (player_data.getD 1 "")

/-- Claim C1: for every raw row with at least 23 cells whose minutes cell
(index 2) is empty, the normalized record has minutos "00:00", shooting
splits "0/0", shooting percentages "0%", every other statistic "0", and the
identity fields id_partido, equipo, titular, dorsal, nombre keep the values
derived from the input. -/
theorem create_player_dict_did_not_play (player_data : List String)
    (game_id : Nat) (team_name : String) (h23 : 23 ≤ player_data.length)
    (hmin : player_data.getD 2 "" = "") :
    didNotPlayConcl player_data game_id team_name := by
  simp only [didNotPlayConcl, create_player_dict]
  rw [hmin]
  simp +decide [zeroFill, List.lookup]

/-- A concrete bench-player row with 23 cells and an empty minutes cell. -/
def dnpRow : List String :=
  ["*7", "Juan Perez", "", "7", "2/5", "40%", "1/3", "33%", "0/0", "0%",
   "4", "3+1", "2", "1", "0", "5", "0", "0", "0", "2", "3", "-5", "8"]

/-- Witness for C1 at a concrete row. -/
theorem create_player_dict_did_not_play_witness :
    didNotPlayConcl dnpRow 5 "EqA" :=
  create_player_dict_did_not_play dnpRow 5 "EqA" (by decide) (by decide)

/-! ## Claim C2: the combined-rebounds split -/

/-- A concrete played row (nonempty minutes) whose combined-rebounds cell
(index 11) is "+4". -/
def plus4Row : List String :=
  ["7", "Ana Ruiz", "12:30", "4", "1/2", "50%", "0/1", "0%", "2/2", "100%",
   "4", "+4", "0", "1", "2", "3", "0", "0", "0", "1", "2", "3", "6"]

/-- Counterexample to claim C2 as stated: on the row `plus4Row` the
combined-rebounds cell "+4" yields defensive rebounds "" (the empty left
part of the Python split), not "0". -/
theorem create_player_dict_plus4_counterexample :
    (create_player_dict plus4Row 3 "EqB").lookup "rebotes_defensivos" =
      some "" ∧
    (create_player_dict plus4Row 3 "EqB").lookup "rebotes_defensivos" ≠
      some "0" := by decide

/-- Claim C2 (amended): for a non-skipped row with nonempty minutes cell,
the combined-rebounds cell is split on the plus sign; "3+2" gives
defensive "3" / offensive "2", "5" gives defensive "5" / offensive "0"
(only a missing right part defaults to "0"), and "+4" gives defensive ""
(the empty left part is kept verbatim) / offensive "4". -/
theorem create_player_dict_rebounds_split (player_data : List String)
    (game_id : Nat) (team_name : String) (h23 : 23 ≤ player_data.length)
    (hmin : player_data.getD 2 "" ≠ "") :
    (player_data.getD 11 "" = "3+2" →
      (create_player_dict player_data game_id team_name).lookup
          "rebotes_defensivos" = some "3" ∧
      (create_player_dict player_data game_id team_name).lookup
          "rebotes_ofensivos" = some "2") ∧
    (player_data.getD 11 "" = "5" →
      (create_player_dict player_data game_id team_name).lookup
          "rebotes_defensivos" = some "5" ∧
      (create_player_dict player_data game_id team_name).lookup
          "rebotes_ofensivos" = some "0") ∧
    (player_data.getD 11 "" = "+4" →
      (create_player_dict player_data game_id team_name).lookup
          "rebotes_defensivos" = some "" ∧
      (create_player_dict player_data game_id team_name).lookup
          "rebotes_ofensivos" = some "4") := by
  refine ⟨fun h11 => ?_, fun h11 => ?_, fun h11 => ?_⟩ <;>
    (simp only [create_player_dict]; rw [if_neg hmin, h11];
     simp +decide [List.lookup])

/-- Witness for the amended C2 at the concrete row `plus4Row`. -/
theorem create_player_dict_rebounds_split_witness :
    (create_player_dict plus4Row 3 "EqB").lookup "rebotes_defensivos" =
      some "" ∧
    (create_player_dict plus4Row 3 "EqB").lookup "rebotes_ofensivos" =
      some "4" :=
  (create_player_dict_rebounds_split plus4Row 3 "EqB" (by decide)
    (by decide)).2.2 (by decide)

/-! ## Claim C9: determinism of the Row Normalizer -/

/-- Claim C9: the Row Normalizer is embedded as a pure function of its
arguments (the Python code mutates no state outside the dict it builds), so
applying it twice to the same raw row, team name and game ID yields
identical records. -/
theorem normalize_row_deterministic (row : List String) (team_name : String)
    (game_id : Nat) :
    normalize_row row team_name game_id = normalize_row row team_name game_id
      ∧
    create_player_dict (row.map pyStrip) game_id team_name =
      create_player_dict (row.map pyStrip) game_id team_name :=
  ⟨rfl, rfl⟩

/-! ## Claim C3: the 27-field schema invariant -/

/-- Looking up `k` in a list that pairs every element of `l` with `f` of
itself yields `f k` whenever `k` is in `l`. -/
theorem lookup_map_self (l : List String) (f : String → String) (k : String)
    (hk : k ∈ l) : (l.map fun a => (a, f a)).lookup k = some (f k) := by
  induction l with
  | nil => simp at hk
  | cons a t ih =>
    simp only [List.map_cons, List.lookup]
    by_cases h : k = a
    · subst h; simp
    · have hba : (k == a) = false := beq_false_of_ne h
      rw [hba]
      exact ih ((List.mem_cons.mp hk).resolve_left h)

/-- Claim C3: every record emitted by the Row Normalizer has exactly the 27
declared fields in the fixed declared order, each field carrying the dict
value when the key was populated and the empty string otherwise. -/
theorem normalize_row_schema (row : List String) (team_name : String)
    (game_id : Nat) (rec : List (String × String))
    (h : normalize_row row team_name game_id = some rec) :
    rec.map Prod.fst = headers ∧ headers.length = 27 ∧
    ∀ k ∈ headers, rec.lookup k =
      some (((create_player_dict (row.map pyStrip) game_id
        team_name).lookup k).getD "") := by
  simp only [normalize_row] at h
  by_cases hlen : (row.map pyStrip).length < 23
  · rw [if_pos hlen] at h
    exact Option.noConfusion h
  · rw [if_neg hlen] at h
    obtain rfl := (Option.some_inj.mp h).symm
    refine ⟨?_, by decide, ?_⟩
    · simp [orderRecord, List.map_map, Function.comp_def]
    · intro k hk
      exact lookup_map_self headers _ k hk

/-- A concrete complete row for the C3 witness. -/
def c3row : List String :=
  ["10", "Mar Lopez", "20:15", "11", "4/6", "66%", "1/2", "50%", "0/0",
   "0%", "6", "4+2", "3", "2", "1", "12", "1", "0", "1", "2", "4", "7", "15"]

/-- The record the Row Normalizer emits for `c3row`. -/
def c3rec : List (String × String) :=
  orderRecord (create_player_dict (c3row.map pyStrip) 2 "EqC")

/-- Witness for C3 at the concrete row `c3row`. -/
theorem normalize_row_schema_witness :
    c3rec.map Prod.fst = headers ∧ headers.length = 27 ∧
    ∀ k ∈ headers, c3rec.lookup k =
      some (((create_player_dict (c3row.map pyStrip) 2 "EqC").lookup
        k).getD "") :=
  normalize_row_schema c3row "EqC" 2 c3rec (by decide)

/-! ## Claim C4: the fixed positional trim and the 23-cell skip -/

/-- Claim C4: for a table whose rows are two header rows, a body `mid`, and
four footer rows, `parse_table` processes exactly the body rows, and any row
with fewer than 23 cells is skipped (the row normalizer returns no record
for it, so it contributes nothing to the output). -/
theorem parse_table_trim_and_skip (pre mid post : List (List String))
    (team_name : String) (game_id : Nat) (row : List String)
    (hpre : pre.length = 2) (hpost : post.length = 4)
    (hrow : row.length < 23) :
    parse_table (pre ++ mid ++ post) team_name game_id =
      mid.filterMap (fun r => normalize_row r team_name game_id) ∧
    normalize_row row team_name game_id = none := by
  constructor
  · simp only [parse_table]
    have hlen : (pre ++ mid ++ post).length - 4 = (pre ++ mid).length := by
      simp only [List.length_append, hpost]
      omega
    rw [hlen, List.take_left (pre ++ mid) post, ← hpre,
      List.drop_left pre mid]
  · simp [normalize_row, hrow]

/-- Concrete table pieces for the C4 witness: two header rows, a body with
one complete row and one short row, four footer rows. -/
def pre4 : List (List String) := [["x"], ["y"]]

def post4 : List (List String) := [["t1"], ["t2"], ["t3"], ["t4"]]

def shortRow : List String := ["9", "Sin Datos", "5:00"]

def mid4 : List (List String) := [c3row, shortRow]

/-- Witness for C4 at a concrete table: the trim equation holds and the
short row is skipped. -/
theorem parse_table_trim_and_skip_witness :
    parse_table (pre4 ++ mid4 ++ post4) "EqD" 9 =
      mid4.filterMap (fun r => normalize_row r "EqD" 9) ∧
    normalize_row shortRow "EqD" 9 = none :=
  parse_table_trim_and_skip pre4 mid4 post4 "EqD" 9 shortRow
    (by decide) (by decide) (by decide)

/-! ## The document model, extract_game_info and the per-game pipeline -/

deriving instance DecidableEq for Except

/-- The single `.datos_fecha` metadata block: its text content and the
optional dedicated venue sub-element `.clase_mostrar1280`. -/
structure DatosFecha where
  text : String
  pabellonSpan : Option String
deriving DecidableEq

/-- A parsed box-score document, exposing exactly the element queries the
scraper performs: the team header texts, the statistics tables (each a list
of rows, each row its td cell texts), the optional metadata block, the
optional referee block text, the result element texts, and the optional
quarter-partials text. -/
structure Doc where
  teamHeaders : List String
  statsTables : List (List (List String))
  datosFecha : Option DatosFecha
  datosArbitros : Option String
  resultados : List String
  parciales : Option String
deriving DecidableEq

/-- The jornada/fecha/hora/pabellon fields of `extract_game_info`
(src/scraper.py lines 97-108).  Indexing `info_text[1]` or `info_text[2]`
out of range raises, as in Python. -/
def headerFields (hf : DatosFecha) : Except String (List (String × String)) :=
  let info_text := pySplitOn (pyStrip hf.text) "|"
  match pyIdx info_text 1, pyIdx info_text 2 with
  | Except.ok t1, Except.ok t2 =>
    Except.ok
      [("jornada", pyReplace (pyStrip (info_text.getD 0 "")) "JORNADA " ""),
       ("fecha", pyStrip t1),
       ("hora", pyStrip t2),
       ("pabellon",
        match hf.pabellonSpan with
        | some s => pyStrip s
        | none =>
          if 3 < info_text.length then pyStrip (info_text.getD 3 "")
          else "")]
  | Except.error e, _ => Except.error e
  | _, Except.error e => Except.error e

/-- The publico field (src/scraper.py lines 110-114): present only when the
metadata text contains the attendance label. -/
def publicoFields (t : String) : List (String × String) :=
  let parts := pySplitOn (pyStrip t) "Público:"
  if 1 < parts.length then [("publico", pyStrip (parts.getD 1 ""))] else []

/-- The referee fields (src/scraper.py lines 116-120): strip the label,
split on commas, keep at most the first three, numbered from 1. -/
def refFields (s : String) : List (String × String) :=
  let refs := (pySplitOn (pyStrip (pyReplace s "Árb:" "")) ",").take 3
  refs.enum.map fun p => ("arbitro" ++ toString (p.1 + 1), pyStrip p.2)

/-- The final-score fields (src/scraper.py lines 122-125): assigned only
when there are exactly two result elements. -/
def resFields (results : List String) : List (String × String) :=
  if results.length = 2 then
    [("resultado_local", pyStrip (results.getD 0 "")),
     ("resultado_visitante", pyStrip (results.getD 1 ""))]
  else []

/-- The quarter-partials loop (src/scraper.py lines 129-135): every
whitespace token must split on the pipe into exactly a local and a visitor
part; any other shape raises ValueError from the tuple unpacking. -/
def parse_quarters : List String → Except String (List String × List String)
  | [] => Except.ok ([], [])
  | tok :: rest =>
    match pySplitOn tok "|" with
    | [l, v] =>
      match parse_quarters rest with
      | Except.ok (ls, vs) => Except.ok (l :: ls, v :: vs)
      | Except.error e => Except.error e
    | _ => Except.error "ValueError: not exactly one pipe in token"

/-- The two quarter-partials fields (src/scraper.py lines 127-137). -/
def quarterFields (q : String) : Except String (List (String × String)) :=
  match parse_quarters (pySplitWs (pyStrip q)) with
  | Except.ok (ls, vs) =>
    Except.ok [("parciales_local", pyJoin "," ls),
               ("parciales_visitante", pyJoin "," vs)]
  | Except.error e => Except.error e

/-- `extract_game_info` (src/scraper.py lines 84-139): the game-info dict,
in insertion order, starting with the game id; every optional element that
is absent simply contributes no keys.  The quarter-partials parse (and an
out-of-range metadata index) raises, propagating out of this function. -/
def extract_game_info (doc : Doc) (game_id : Nat) :
    Except String (List (String × String)) :=
  match (match doc.datosFecha with
         | some hf => headerFields hf
         | none => Except.ok []) with
  | Except.error e => Except.error e
  | Except.ok hfs =>
    let pubs := match doc.datosFecha with
      | some hf => publicoFields hf.text
      | none => []
    let refs := match doc.datosArbitros with
      | some s => refFields s
      | none => []
    let ress := resFields doc.resultados
    match (match doc.parciales with
           | some q => quarterFields q
           | none => Except.ok []) with
    | Except.error e => Except.error e
    | Except.ok pars =>
      Except.ok (("id_partido", toString game_id) ::
        (hfs ++ pubs ++ refs ++ ress ++ pars))

/-- The per-game result of `get_game_data`: the combined player statistics
of both teams plus the game-info record. -/
structure GameData where
  player_stats : List (List (String × String))
  game_info : List (String × String)
deriving DecidableEq

/-- `get_game_data` (src/scraper.py lines 34-82).  The argument `fetched`
is the outcome of fetch-plus-parse: an exception during fetch is caught
here and turned into `none`; an exception escaping `extract_game_info`
propagates (there is no try around it); fewer than two team headers or
fewer than two statistics tables yields `none`. -/
def get_game_data (fetched : Except String Doc) (game_id : Nat) :
    Except String (Option GameData) :=
  match fetched with
  | Except.error _ => Except.ok none
  | Except.ok doc =>
    match extract_game_info doc game_id with
    | Except.error e => Except.error e
    | Except.ok game_info =>
      if doc.teamHeaders.length < 2 then Except.ok none
      else
        let team1 := pyStrip (doc.teamHeaders.getD 0 "")
        let team2 := pyStrip (doc.teamHeaders.getD 1 "")
        if doc.statsTables.length < 2 then Except.ok none
        else
          Except.ok (some
            { player_stats :=
                parse_table (doc.statsTables.getD 0 []) team1 game_id ++
                parse_table (doc.statsTables.getD 1 []) team2 game_id,
              game_info := game_info })

/-- `process_game` (src/main.py lines 39-57): any exception escaping
`get_game_data` is caught at this per-game task boundary and becomes
`none`. -/
def process_game (fetched : Except String Doc) (game_id : Nat) :
    Option GameData :=
  match get_game_data fetched game_id with
  | Except.ok r => r
  | Except.error _ => none

/-- `process_games` (src/main.py lines 59-79): tasks complete in some
arrival order (modelled by the explicit `order` list, a permutation of the
id range); `docOf` gives each task its fetch-plus-parse outcome; `None`
results are dropped. -/
def process_games (order : List Nat) (docOf : Nat → Except String Doc) :
    List GameData :=
  order.filterMap fun game_id => process_game (docOf game_id) game_id

/-- The Python `range(start_id, end_id + 1)` of game ids. -/
def gameRange (start_id end_id : Nat) : List Nat :=
  (List.range (end_id + 1 - start_id)).map (· + start_id)

/-- The number of tasks of a run that produced no data (fetch failure or
structural extraction failure): the failure count of the batch result. -/
def failed_count (order : List Nat) (docOf : Nat → Except String Doc) : Nat :=
  (order.filter fun g => (process_game (docOf g) g).isNone).length

/-- The game ids carried by a list of per-game results, read from the
id_partido field of each game-info record. -/
def resultIds (rs : List GameData) : List String :=
  rs.map fun d => (d.game_info.lookup "id_partido").getD ""

/-- The declared game-info columns of the aggregation step
(src/main.py lines 129-132). -/
def games_columns : List String :=
  ["id_partido", "jornada", "fecha", "hora", "pabellon", "publico",
   "arbitro1", "arbitro2", "arbitro3", "resultado_local",
   "resultado_visitante", "parciales_local", "parciales_visitante"]

/-- The aggregation step of main (src/main.py lines 124-139) as seen by one
output row: the combined game-info table is restricted and reordered to the
declared columns, and a value missing from a record renders as the empty
string in the written CSV. -/
def finalize_game_row (gi : List (String × String)) :
    List (String × String) :=
  games_columns.map fun c => (c, (gi.lookup c).getD "")

/-! ## Claim C8: game-info record columns and graceful degradation -/

/-- A document with two team headers and two (empty) statistics tables but
none of the metadata elements. -/
def docNoMeta : Doc :=
  { teamHeaders := ["EqLocal", "EqVisit"],
    statsTables := [[], []],
    datosFecha := none,
    datosArbitros := none,
    resultados := [],
    parciales := none }

/-- Counterexample to claim C8 as stated: when the metadata elements are
absent, the record produced by the Game-Info Normalizer contains only the
game id; the declared column jornada (like every other declared column) is
missing from it rather than present with an empty value. -/
theorem extract_game_info_missing_columns_counterexample :
    (extract_game_info docNoMeta 7).toOption =
      some [("id_partido", "7")] ∧
    (((extract_game_info docNoMeta 7).toOption.getD []).lookup "jornada") =
      none := by decide

/-- Claim C8 (amended): when the metadata block and the other metadata
elements are absent, the record produced by extract_game_info carries only
the id_partido field (absent elements contribute no keys), the player
statistics of the game are still produced, and it is only the aggregation
step of main that gives every output row all 13 declared columns, with the
empty string where no value was extracted. -/
theorem extract_game_info_graceful (doc : Doc) (game_id : Nat)
    (hdf : doc.datosFecha = none) (hda : doc.datosArbitros = none)
    (hres : doc.resultados.length ≠ 2) (hpar : doc.parciales = none)
    (hth : 2 ≤ doc.teamHeaders.length) (hst : 2 ≤ doc.statsTables.length) :
    extract_game_info doc game_id =
      Except.ok [("id_partido", toString game_id)] ∧
    get_game_data (Except.ok doc) game_id = Except.ok (some
      { player_stats :=
          parse_table (doc.statsTables.getD 0 [])
            (pyStrip (doc.teamHeaders.getD 0 "")) game_id ++
          parse_table (doc.statsTables.getD 1 [])
            (pyStrip (doc.teamHeaders.getD 1 "")) game_id,
        game_info := [("id_partido", toString game_id)] }) ∧
    (finalize_game_row [("id_partido", toString game_id)]).map Prod.fst =
      games_columns := by
  have hex : extract_game_info doc game_id =
      Except.ok [("id_partido", toString game_id)] := by
    simp [extract_game_info, hdf, hda, hpar, resFields, hres]
  refine ⟨hex, ?_, ?_⟩
  · have h1 : ¬ doc.teamHeaders.length < 2 := Nat.not_lt.mpr hth
    have h2 : ¬ doc.statsTables.length < 2 := Nat.not_lt.mpr hst
    simp [get_game_data, hex, h1, h2]
  · simp [finalize_game_row, List.map_map, Function.comp_def]

/-- Witness for the amended C8 at the concrete document `docNoMeta`. -/
theorem extract_game_info_graceful_witness :
    extract_game_info docNoMeta 7 =
      Except.ok [("id_partido", toString 7)] ∧
    get_game_data (Except.ok docNoMeta) 7 = Except.ok (some
      { player_stats :=
          parse_table (docNoMeta.statsTables.getD 0 [])
            (pyStrip (docNoMeta.teamHeaders.getD 0 "")) 7 ++
          parse_table (docNoMeta.statsTables.getD 1 [])
            (pyStrip (docNoMeta.teamHeaders.getD 1 "")) 7,
        game_info := [("id_partido", toString 7)] }) ∧
    (finalize_game_row [("id_partido", toString 7)]).map Prod.fst =
      games_columns :=
  extract_game_info_graceful docNoMeta 7 rfl rfl (by decide) rfl
    (by decide) (by decide)

/-! ## Claim C10: a malformed quarter token fails the whole game -/

/-- A token without exactly one pipe separator makes the quarter-partials
loop raise, wherever it sits in the token list. -/
theorem parse_quarters_error (toks : List String) (tok : String)
    (hmem : tok ∈ toks) (hbad : (pySplitOn tok "|").length ≠ 2) :
    ∃ e, parse_quarters toks = Except.error e := by
  induction toks with
  | nil => exact absurd hmem (List.not_mem_nil tok)
  | cons a rest ih =>
    rcases List.mem_cons.mp hmem with rfl | hmem2
    · simp only [parse_quarters]
      rcases hsp : pySplitOn tok "|" with _ | ⟨l, _ | ⟨v, _ | ⟨w, t⟩⟩⟩
      · exact ⟨_, rfl⟩
      · exact ⟨_, rfl⟩
      · exact absurd (by simp [hsp]) hbad
      · exact ⟨_, rfl⟩
    · simp only [parse_quarters]
      rcases hsp : pySplitOn a "|" with _ | ⟨l, _ | ⟨v, _ | ⟨w, t⟩⟩⟩
      · exact ⟨_, rfl⟩
      · exact ⟨_, rfl⟩
      · obtain ⟨e, he⟩ := ih hmem2
        rw [he]
        exact ⟨e, rfl⟩
      · exact ⟨_, rfl⟩

/-- Claim C10: if the quarter-partials element is present and some
whitespace token of its text does not split on the pipe into exactly two
parts, the parse raises; the exception escapes extract_game_info and
get_game_data (the whole game, player statistics included, yields no data
even though the fetch succeeded), is caught only at the per-game task
boundary of process_game, and sibling games are unaffected. -/
theorem quarter_parse_failure (doc : Doc) (game_id : Nat) (q tok : String)
    (rest : List Nat) (docOf : Nat → Except String Doc)
    (hq : doc.parciales = some q)
    (hmem : tok ∈ pySplitWs (pyStrip q))
    (hbad : (pySplitOn tok "|").length ≠ 2)
    (hdocOf : docOf game_id = Except.ok doc) :
    (∃ e, extract_game_info doc game_id = Except.error e) ∧
    (∃ e, get_game_data (Except.ok doc) game_id = Except.error e) ∧
    process_game (Except.ok doc) game_id = none ∧
    process_games (game_id :: rest) docOf = process_games rest docOf := by
  have hqf : ∃ e, quarterFields q = Except.error e := by
    obtain ⟨e, he⟩ := parse_quarters_error (pySplitWs (pyStrip q)) tok hmem
      hbad
    exact ⟨e, by simp only [quarterFields, he]⟩
  have hex : ∃ e, extract_game_info doc game_id = Except.error e := by
    obtain ⟨e, he⟩ := hqf
    unfold extract_game_info
    cases hh : (match doc.datosFecha with
                | some hf => headerFields hf
                | none => Except.ok []) with
    | error e2 => exact ⟨e2, rfl⟩
    | ok hfs =>
      rw [hq]
      simp only [he]
      exact ⟨e, rfl⟩
  obtain ⟨e, he⟩ := hex
  have hgg : get_game_data (Except.ok doc) game_id = Except.error e := by
    simp only [get_game_data, he]
  have hpg : process_game (Except.ok doc) game_id = none := by
    simp only [process_game, hgg]
  refine ⟨⟨e, he⟩, ⟨e, hgg⟩, hpg, ?_⟩
  simp only [process_games, List.filterMap_cons, hdocOf, hpg]

/-- A concrete document whose quarter-partials text has the malformed
token "33". -/
def doc10 : Doc :=
  { teamHeaders := ["A", "B"],
    statsTables := [[], []],
    datosFecha := none,
    datosArbitros := none,
    resultados := [],
    parciales := some "12|10 33" }

/-- The fetch-plus-parse outcome used by the C10 witness. -/
def docOf10 : Nat → Except String Doc := fun _ => Except.ok doc10

/-- Witness for C10 at the concrete document `doc10`. -/
theorem quarter_parse_failure_witness :
    process_game (Except.ok doc10) 4 = none ∧
    process_games (4 :: [6]) docOf10 = process_games [6] docOf10 :=
  let h := quarter_parse_failure doc10 4 "12|10 33" "33" [6] docOf10 rfl
    (by decide) (by decide) rfl
  ⟨h.2.2.1, h.2.2.2⟩

/-! ## The fetcher: retry, rate limit and the per-game boundary -/

/-- The outcome of one GET by the underlying transport: either the request
itself raises (connection error, timeout), or a response arrives with a
status code and a body text. -/
inductive AttemptOutcome
  | connError
  | response (status : Nat) (body : String)
deriving DecidableEq

/-- The observable events inside one fetch attempt, in order: the response
arriving, a sleep with its duration, the raise on a non-success status, the
body read, the return. -/
inductive FetchEvent
  | gotResponse
  | sleep (n : Nat)
  | statusError
  | bodyRead
  | returned
deriving DecidableEq

/-- One attempt of `fetch` (src/scraper.py lines 28-32): once the response
arrives the code first sleeps the configured rate limit, then checks the
status (raise_for_status raises on status 400 and above), then reads and
returns the body.  A transport error raises before any sleep. -/
def fetchAttempt (rate_limit : Nat) :
    AttemptOutcome → Except String String × List FetchEvent
  | AttemptOutcome.connError => (Except.error "ClientConnectionError", [])
  | AttemptOutcome.response status body =>
    if 400 ≤ status then
      (Except.error "ClientResponseError",
       [FetchEvent.gotResponse, FetchEvent.sleep rate_limit,
        FetchEvent.statusError])
    else
      (Except.ok body,
       [FetchEvent.gotResponse, FetchEvent.sleep rate_limit,
        FetchEvent.bodyRead, FetchEvent.returned])

/-- The sleep durations recorded in an event list. -/
def sleepsOf (evs : List FetchEvent) : List Nat :=
  evs.filterMap fun e =>
    match e with
    | FetchEvent.sleep n => some n
    | _ => none

/-- The fixed inter-attempt wait of the retry decorator,
wait_fixed(5) in src/scraper.py line 11. -/
def retry_wait : Nat := 5

/-- The result of the decorated fetch: the final result, the inter-attempt
waits performed by the retry decorator, and the in-attempt events. -/
structure FetchOutcome where
  result : Except String String
  retryWaits : List Nat
  events : List FetchEvent
deriving DecidableEq

/-- `fetch` with its tenacity decorator (src/scraper.py line 11),
stop_after_attempt(3) and wait_fixed(5) unrolled: up to three attempts on
the successive transport outcomes, a `retry_wait` sleep between consecutive
attempts, no wait after the last failed attempt, whose exception
propagates. -/
def fetch (transport : Nat → AttemptOutcome) (rate_limit : Nat) :
    FetchOutcome :=
  let a0 := fetchAttempt rate_limit (transport 0)
  if a0.1.isOk then { result := a0.1, retryWaits := [], events := a0.2 }
  else
    let a1 := fetchAttempt rate_limit (transport 1)
    if a1.1.isOk then
      { result := a1.1, retryWaits := [retry_wait], events := a0.2 ++ a1.2 }
    else
      let a2 := fetchAttempt rate_limit (transport 2)
      { result := a2.1, retryWaits := [retry_wait, retry_wait],
        events := a0.2 ++ a1.2 ++ a2.2 }

/-! ## Claim C6: retry semantics and the per-game fetch boundary -/

/-- Claim C6: for a transport `t1` failing on the first two attempts and
delivering a success response on the third, fetch returns the successful
body and performs the fixed inter-attempt wait exactly twice; for a
transport `t2` failing on all three attempts, fetch yields a failure and
get_game_data (which holds the try around fetch) turns it into `none`
instead of letting it propagate past the per-game boundary. -/
theorem fetch_retry (t1 t2 : Nat → AttemptOutcome) (rate_limit : Nat)
    (status : Nat) (body : String) (parse : String → Doc) (game_id : Nat)
    (h0 : (fetchAttempt rate_limit (t1 0)).1.isOk = false)
    (h1 : (fetchAttempt rate_limit (t1 1)).1.isOk = false)
    (h2 : t1 2 = AttemptOutcome.response status body)
    (hst : status < 400)
    (g0 : (fetchAttempt rate_limit (t2 0)).1.isOk = false)
    (g1 : (fetchAttempt rate_limit (t2 1)).1.isOk = false)
    (g2 : (fetchAttempt rate_limit (t2 2)).1.isOk = false) :
    (fetch t1 rate_limit).result = Except.ok body ∧
    (fetch t1 rate_limit).retryWaits = [retry_wait, retry_wait] ∧
    (fetch t2 rate_limit).result.isOk = false ∧
    get_game_data ((fetch t2 rate_limit).result.map parse) game_id =
      Except.ok none := by
  have ha2 : fetchAttempt rate_limit (t1 2) =
      (Except.ok body,
       [FetchEvent.gotResponse, FetchEvent.sleep rate_limit,
        FetchEvent.bodyRead, FetchEvent.returned]) := by
    rw [h2]
    simp [fetchAttempt, Nat.not_le.mpr hst]
  obtain ⟨e2, he2⟩ : ∃ e, (fetchAttempt rate_limit (t2 2)).1 =
      Except.error e := by
    cases hr : (fetchAttempt rate_limit (t2 2)).1 with
    | ok b => rw [hr] at g2; simp [Except.isOk, Except.toBool] at g2
    | error e => exact ⟨e, rfl⟩
  refine ⟨?_, ?_, ?_, ?_⟩
  · simp [fetch, h0, h1, ha2]
  · simp [fetch, h0, h1]
  · simp [fetch, g0, g1, g2]
  · simp [fetch, g0, g1, he2, Except.map, get_game_data]

/-- The transport of the C6 witness that fails twice, then succeeds. -/
def tFailTwice : Nat → AttemptOutcome := fun i =>
  if i < 2 then AttemptOutcome.connError
  else AttemptOutcome.response 200 "documento"

/-- The transport of the C6 witness that fails on every attempt. -/
def tAllFail : Nat → AttemptOutcome := fun _ =>
  AttemptOutcome.response 500 "error interno"

/-- Witness for C6 at the two concrete transports. -/
theorem fetch_retry_witness :
    (fetch tFailTwice 1).result = Except.ok "documento" ∧
    (fetch tFailTwice 1).retryWaits = [retry_wait, retry_wait] ∧
    (fetch tAllFail 1).result.isOk = false ∧
    get_game_data ((fetch tAllFail 1).result.map (fun _ => docNoMeta)) 8 =
      Except.ok none :=
  fetch_retry tFailTwice tAllFail 1 200 "documento" (fun _ => docNoMeta) 8
    (by decide) (by decide) (by decide) (by decide) (by decide) (by decide)
    (by decide)

/-! ## Claim C7: placement of the rate-limit delay -/

/-- Counterexample to claim C7 as stated: the rate-limit sleep is performed
on an attempt that fails with a non-success status (the claim says it is
not), and on a successful attempt it happens before the body is read (the
claim says after). -/
theorem rate_limit_counterexample :
    sleepsOf (fetchAttempt 1 (AttemptOutcome.response 500 "cuerpo")).2 =
      [1] ∧
    (fetchAttempt 1 (AttemptOutcome.response 200 "cuerpo")).2 =
      [FetchEvent.gotResponse, FetchEvent.sleep 1, FetchEvent.bodyRead,
       FetchEvent.returned] := by decide

/-- Claim C7 (amended): the rate-limit delay is applied exactly once on
every attempt in which a response arrives — immediately after the response
and before the status check and the body read — including attempts that
fail with a non-success status; it is not applied on attempts that fail
with a transport error before a response arrives. -/
theorem rate_limit_placement (rate_limit status : Nat) (body : String) :
    (fetchAttempt rate_limit (AttemptOutcome.response status body)).2.take 2
      = [FetchEvent.gotResponse, FetchEvent.sleep rate_limit] ∧
    sleepsOf
        (fetchAttempt rate_limit (AttemptOutcome.response status body)).2 =
      [rate_limit] ∧
    sleepsOf (fetchAttempt rate_limit AttemptOutcome.connError).2 = [] := by
  by_cases h : 400 ≤ status <;> simp [fetchAttempt, sleepsOf, h]

/-! ## Claim C5: batch resilience -/

/-- Every record extract_game_info returns starts with the id_partido
field, so looking it up gives the game id. -/
theorem extract_game_info_id (doc : Doc) (game_id : Nat)
    (gi : List (String × String))
    (h : extract_game_info doc game_id = Except.ok gi) :
    gi.lookup "id_partido" = some (toString game_id) := by
  unfold extract_game_info at h
  rcases hh : (match doc.datosFecha with
               | some hf => headerFields hf
               | none => Except.ok []) with e | hfs
  · rw [hh] at h; simp at h
  · rw [hh] at h
    rcases hp : (match doc.parciales with
                 | some q => quarterFields q
                 | none => Except.ok []) with e | pars
    · rw [hp] at h; simp at h
    · rw [hp] at h
      simp only [Except.ok.injEq] at h
      subst h
      simp [List.lookup]

/-- A successful get_game_data carries a game-info record whose id_partido
field is the game id. -/
theorem get_game_data_id (fetched : Except String Doc) (game_id : Nat)
    (d : GameData)
    (h : get_game_data fetched game_id = Except.ok (some d)) :
    d.game_info.lookup "id_partido" = some (toString game_id) := by
  unfold get_game_data at h
  split at h
  next e => simp at h
  next doc =>
    split at h
    next e heq => simp at h
    next gi heq =>
      split at h
      next hlt => simp at h
      next hge =>
        split at h
        next hlt2 => simp at h
        next hge2 =>
          simp only [Except.ok.injEq, Option.some.injEq] at h
          rw [← h]
          exact extract_game_info_id doc game_id gi heq

/-- A successful per-game task carries a game-info record whose id_partido
field is the game id. -/
theorem process_game_id (fetched : Except String Doc) (game_id : Nat)
    (d : GameData) (h : process_game fetched game_id = some d) :
    d.game_info.lookup "id_partido" = some (toString game_id) := by
  unfold process_game at h
  rcases hgd : get_game_data fetched game_id with e | r
  · rw [hgd] at h; simp at h
  · rw [hgd] at h
    have hr : r = some d := h
    rw [hr] at hgd
    exact get_game_data_id fetched game_id d hgd

/-- Dropping exactly the elements of F from a filterMap. -/
theorem filterMap_if_not_mem (l F : List Nat) (f : Nat → String) :
    (l.filterMap fun g => if g ∈ F then none else some (f g)) =
      (l.filter fun g => decide (g ∉ F)).map f := by
  induction l with
  | nil => rfl
  | cons a t ih =>
    by_cases h : a ∈ F <;>
      simp [List.filterMap_cons, List.filter_cons, h, ih]

/-- The id range of a run has no duplicate ids. -/
theorem gameRange_nodup (start_id end_id : Nat) :
    (gameRange start_id end_id).Nodup := by
  unfold gameRange
  exact (List.nodup_range _).map fun a b hab => by omega

/-- Claim C5: for a batch over the id range in which exactly the ids of F
fail (fetch failure or structural extraction failure, both yielding a
`none` task result) and all other ids succeed, the terminal collections
contain data for exactly the succeeding ids — whatever the arrival order of
the tasks — and the failure count equals the size of F; no per-game failure
removes any sibling id from the result. -/
theorem batch_partial_failure (start_id end_id : Nat) (order F : List Nat)
    (docOf : Nat → Except String Doc)
    (hperm : order.Perm (gameRange start_id end_id))
    (hnodup : F.Nodup)
    (hsub : ∀ g ∈ F, g ∈ gameRange start_id end_id)
    (hfail : ∀ g ∈ gameRange start_id end_id,
      (process_game (docOf g) g = none ↔ g ∈ F)) :
    (resultIds (process_games order docOf)).Perm
      (((gameRange start_id end_id).filter fun g => decide (g ∉ F)).map
        fun g => toString g) ∧
    failed_count order docOf = F.length := by
  constructor
  · have h1 : resultIds (process_games order docOf) =
        order.filterMap fun g => (process_game (docOf g) g).map
          fun d => (d.game_info.lookup "id_partido").getD "" := by
      simp [resultIds, process_games, List.map_filterMap]
    rw [h1]
    refine (hperm.filterMap _).trans ?_
    have h3 : ((gameRange start_id end_id).filterMap fun g =>
        (process_game (docOf g) g).map
          fun d => (d.game_info.lookup "id_partido").getD "") =
        (gameRange start_id end_id).filterMap fun g =>
          if g ∈ F then none else some (toString g) := by
      apply List.filterMap_congr
      intro g hg
      by_cases hF : g ∈ F
      · rw [if_pos hF, (hfail g hg).mpr hF]
        rfl
      · rw [if_neg hF]
        rcases hsome : process_game (docOf g) g with _ | d
        · exact absurd ((hfail g hg).mp hsome) hF
        · have hid := process_game_id (docOf g) g d hsome
          simp [hid]
    rw [h3, filterMap_if_not_mem]
  · have h4 : failed_count order docOf =
        ((gameRange start_id end_id).filter fun g =>
          (process_game (docOf g) g).isNone).length :=
      (hperm.filter _).length_eq
    rw [h4]
    have h5 : ((gameRange start_id end_id).filter fun g =>
        (process_game (docOf g) g).isNone) =
        (gameRange start_id end_id).filter fun g => decide (g ∈ F) := by
      apply List.filter_congr
      intro g hg
      by_cases hF : g ∈ F
      · simp [hF, Option.isNone_iff_eq_none, (hfail g hg).mpr hF]
      · have hne : process_game (docOf g) g ≠ none :=
          fun hnone => hF ((hfail g hg).mp hnone)
        simp [hF, Option.isNone_iff_eq_none, Option.isSome_iff_ne_none, hne]
    rw [h5]
    have h6 : ((gameRange start_id end_id).filter fun g =>
        decide (g ∈ F)).Perm F := by
      refine (List.perm_ext_iff_of_nodup ?_ hnodup).mpr ?_
      · exact (gameRange_nodup start_id end_id).filter _
      · intro a
        simp only [List.mem_filter, decide_eq_true_eq]
        exact ⟨fun p => p.2, fun h => ⟨hsub a h, h⟩⟩
    exact h6.length_eq

/-- The fetch-plus-parse outcomes of the C5 witness: game id 2 fails at
fetch, every other id parses to `docNoMeta`. -/
def docOf5 : Nat → Except String Doc := fun g =>
  if g = 2 then Except.error "ConnectionError" else Except.ok docNoMeta

/-- Witness for C5: ids 1..3 with arrival order 2, 3, 1 and F the single
failing id 2. -/
theorem batch_partial_failure_witness :
    (resultIds (process_games [2, 3, 1] docOf5)).Perm
      (((gameRange 1 3).filter fun g => decide (g ∉ [2])).map
        fun g => toString g) ∧
    failed_count [2, 3, 1] docOf5 = [2].length :=
  batch_partial_failure 1 3 [2, 3, 1] [2] docOf5 (by decide) (by decide)
    (by decide) (by decide)
